import Mathlib

/-!
Verification of the anomaly-scoring pipeline of the
snowflake-streamlit-dashboard repository.

The scoring logic lives in the SQL statement built by
`SnowflakeAnalytics.detect_anomalies` (scripts/snowflake_analytics.py,
lines 275-310).  The embedding below models that statement row by row:

* `DailyMetric` is one row of the `daily_metrics` CTE (a date and the
  aggregated metric value for that date).
* `avg_value` and `stddev_value` are the `statistics` CTE.  Snowflake's
  `AVG` returns NULL on an empty input and `STDDEV` is the *sample*
  standard deviation, returning NULL when there are fewer than two rows;
  NULL is modelled as `Option.none`.
* `z_score`, `status` and `direction` are the three computed columns of
  the final SELECT.  SQL comparisons involving NULL are not true, which
  is modelled by `sqlTrue`.
* `detect_anomalies` maps the SELECT list over the input rows and then
  applies the `ORDER BY d.metric_date DESC` clause (modelled with
  insertion sort on the date key, which is unique per row because the
  CTE groups by date).

The severe-anomaly extraction sites are also embedded:
`filterAnomalies` (example_workflow.py line 90), `filterAlerts`
(dashboard_app.py line 386) and the Slack alerting path of alerts.py
(`send_slack_alert`, `check_and_alert`).
-/

open scoped Classical

namespace SnowflakeAnalytics

/-- One row of the `daily_metrics` CTE: a calendar date (modelled as an
integer day number) and the aggregated metric value for that date. -/
structure DailyMetric where
  metric_date : Int
  metric_value : ℝ

/-- The `metric_value` column of `daily_metrics`. -/
def values (rows : List DailyMetric) : List ℝ :=
  rows.map (fun d => d.metric_value)

/-- `AVG(metric_value)` of the `statistics` CTE.  SQL `AVG` over an empty
input is NULL. -/
noncomputable def avg_value (rows : List DailyMetric) : Option ℝ :=
  if rows.length = 0 then none
  else some ((values rows).sum / (rows.length : ℝ))

/-- `STDDEV(metric_value)` of the `statistics` CTE.  Snowflake `STDDEV`
is the sample standard deviation (denominator `n - 1`); it is NULL when
there are fewer than two input rows. -/
noncomputable def stddev_value (rows : List DailyMetric) : Option ℝ :=
  if rows.length < 2 then none
  else some (Real.sqrt
    (((values rows).map
        (fun x => (x - (values rows).sum / (rows.length : ℝ)) ^ 2)).sum
      / ((rows.length : ℝ) - 1)))

/-- SQL `NULLIF(s, 0)`: NULL when the operand is NULL or equal to 0. -/
noncomputable def nullifZero (s : Option ℝ) : Option ℝ :=
  s.bind (fun sv => if sv = 0 then none else some sv)

/-- Truth of a SQL comparison whose operand may be NULL: the comparison
holds only when the operand is non-NULL and the predicate holds. -/
def sqlTrue (x : Option ℝ) (p : ℝ → Prop) : Prop :=
  ∃ v, x = some v ∧ p v

/-- The `z_score` column:
`(d.metric_value - s.avg_value) / NULLIF(s.stddev_value, 0)`.
Division by NULL is NULL, so the z-score is NULL whenever the average is
NULL or the standard deviation is NULL or zero. -/
noncomputable def z_score (v : ℝ) (a s : Option ℝ) : Option ℝ :=
  match a, nullifZero s with
  | some av, some sv => some ((v - av) / sv)
  | _, _ => none

/-- The `status` column.  The SQL CASE re-evaluates the same quotient as
the `z_score` column; a NULL comparison is not true, so a NULL z-score
falls through to the ELSE branch. -/
noncomputable def status (v : ℝ) (a s : Option ℝ) (threshold_std : ℝ) : String :=
  if sqlTrue (z_score v a s) (fun z => |z| > threshold_std) then "ANOMALY"
  else if sqlTrue (z_score v a s) (fun z => |z| > threshold_std * 0.75) then "WARNING"
  else "NORMAL"

/-- The `direction` column:
`CASE WHEN d.metric_value > s.avg_value THEN 'ABOVE_AVERAGE' ELSE
'BELOW_AVERAGE' END`. -/
noncomputable def direction (v : ℝ) (a : Option ℝ) : String :=
  if sqlTrue a (fun av => v > av) then "ABOVE_AVERAGE" else "BELOW_AVERAGE"

/-- One row of the result set of `detect_anomalies`. -/
structure ResultRow where
  metric_date : Int
  metric_value : ℝ
  z_score : Option ℝ
  status : String
  direction : String

/-- The SELECT list applied to one `daily_metrics` row, with the
(window-wide) statistics `a` and `s` and the interpolated threshold. -/
noncomputable def resultRow (a s : Option ℝ) (threshold_std : ℝ)
    (d : DailyMetric) : ResultRow where
  metric_date := d.metric_date
  metric_value := d.metric_value
  z_score := z_score d.metric_value a s
  status := status d.metric_value a s threshold_std
  direction := direction d.metric_value a

/-- The sort key of `ORDER BY d.metric_date DESC`. -/
def dateDesc (r1 r2 : ResultRow) : Prop :=
  r2.metric_date ≤ r1.metric_date

instance : DecidableRel dateDesc :=
  fun r1 r2 => inferInstanceAs (Decidable (r2.metric_date ≤ r1.metric_date))

instance : IsTotal ResultRow dateDesc :=
  ⟨fun r1 r2 => le_total r2.metric_date r1.metric_date⟩

instance : IsTrans ResultRow dateDesc :=
  ⟨fun _ _ _ h1 h2 => le_trans h2 h1⟩

/-- The full query of `detect_anomalies`: compute the window statistics
once, apply the SELECT list to every row, and sort the result by date
descending (`ORDER BY d.metric_date DESC`). -/
noncomputable def detect_anomalies (rows : List DailyMetric)
    (threshold_std : ℝ) : List ResultRow :=
  List.insertionSort dateDesc
    (rows.map (resultRow (avg_value rows) (stddev_value rows) threshold_std))

/-- The severity ordering NORMAL < WARNING < ANOMALY, as a rank. -/
def severityRank (s : String) : Nat :=
  if s = "ANOMALY" then 2 else if s = "WARNING" then 1 else 0

/-- example_workflow.py line 90:
`anomalies[anomalies['STATUS'] == 'ANOMALY']`. -/
def filterAnomalies (rows : List ResultRow) : List ResultRow :=
  rows.filter (fun r => r.status == "ANOMALY")

/-- dashboard_app.py line 386:
`anomalies[anomalies['STATUS'].isin(['ANOMALY', 'WARNING'])]`. -/
def filterAlerts (rows : List ResultRow) : List ResultRow :=
  rows.filter (fun r => r.status == "ANOMALY" || r.status == "WARNING")

/-- The spec's `extractSevere`: keep the rows whose severity is at or
above `minSeverity` in the ordering NORMAL < WARNING < ANOMALY.  Stated
from the spec's words, to be compared with the two filter sites above. -/
def extractSevere (rows : List ResultRow) (minSeverity : Nat) : List ResultRow :=
  rows.filter (fun r => decide (minSeverity ≤ severityRank r.status))

/-- A two-point window with distinct values (mean 1, sample variance 2). -/
def exPair : List DailyMetric := [⟨0, 0⟩, ⟨1, 2⟩]

/-- A two-point constant window (every value equal to 5). -/
def exConst : List DailyMetric := [⟨0, 5⟩, ⟨1, 5⟩]

/-- The spec's boundary-case window `[10, 10, 10, 10, 100]`. -/
def exBoundary : List DailyMetric :=
  [⟨0, 10⟩, ⟨1, 10⟩, ⟨2, 10⟩, ⟨3, 10⟩, ⟨4, 100⟩]

/-- The spec's end-to-end window
`[100, 102, 98, 101, 99, 103, 97, 250]` over 8 consecutive periods. -/
def exScenario : List DailyMetric :=
  [⟨0, 100⟩, ⟨1, 102⟩, ⟨2, 98⟩, ⟨3, 101⟩,
   ⟨4, 99⟩, ⟨5, 103⟩, ⟨6, 97⟩, ⟨7, 250⟩]

end SnowflakeAnalytics

namespace Alerts

/-- One row of `tables/geographic_anomalies.csv` as read by
`check_and_alert` (alerts.py), with the columns the function touches. -/
structure GeoRow where
  month : Int
  country : String
  anomaly_score : ℝ
  anomaly_severity : String
  total_revenue : ℝ

/-- One element of the `anomalies` list built by `check_and_alert` and
consumed by `send_slack_alert`. -/
structure AlertItem where
  country : String
  score : ℝ
  revenue : ℝ

/-- alerts.py lines 11-47.  `post` abstracts `requests.post` on the
payload built from the anomaly list (returning whether the response
status is 200).  With an empty anomaly list the function returns `false`
before the payload is built, so `post` is never consulted. -/
def send_slack_alert (post : List AlertItem → Bool)
    (anomalies : List AlertItem) : Bool :=
  if anomalies.isEmpty then false else post anomalies

/-- `df['month'].max()` (none on an empty table). -/
def latest_month (df : List GeoRow) : Option Int :=
  (df.map (fun r => r.month)).max?

/-- The `severe` selection of `check_and_alert`:
rows of the latest month whose `anomaly_severity` is `'Severe'`. -/
def severeRows (df : List GeoRow) : List GeoRow :=
  df.filter (fun r =>
    latest_month df == some r.month && r.anomaly_severity == "Severe")

/-- The dict built per severe row in `check_and_alert`. -/
def toAlertItem (r : GeoRow) : AlertItem where
  country := r.country
  score := r.anomaly_score
  revenue := r.total_revenue

/-- alerts.py lines 50-79.  Returns `none` when the function prints the
no-anomaly message and exits without calling `send_slack_alert`, and
`some b` when `send_slack_alert` is invoked and returns `b`. -/
def check_and_alert (post : List AlertItem → Bool)
    (df : List GeoRow) : Option Bool :=
  if (severeRows df).length = 0 then none
  else some (send_slack_alert post ((severeRows df).map toAlertItem))

end Alerts

namespace SnowflakeAnalytics

@[simp] lemma resultRow_date (a s : Option ℝ) (t : ℝ) (d : DailyMetric) :
    (resultRow a s t d).metric_date = d.metric_date := rfl

@[simp] lemma resultRow_value (a s : Option ℝ) (t : ℝ) (d : DailyMetric) :
    (resultRow a s t d).metric_value = d.metric_value := rfl

@[simp] lemma resultRow_z (a s : Option ℝ) (t : ℝ) (d : DailyMetric) :
    (resultRow a s t d).z_score = z_score d.metric_value a s := rfl

@[simp] lemma resultRow_status (a s : Option ℝ) (t : ℝ) (d : DailyMetric) :
    (resultRow a s t d).status = status d.metric_value a s t := rfl

@[simp] lemma resultRow_direction (a s : Option ℝ) (t : ℝ) (d : DailyMetric) :
    (resultRow a s t d).direction = direction d.metric_value a := rfl

lemma nullifZero_some {s : ℝ} (h : s ≠ 0) : nullifZero (some s) = some s := by
  simp [nullifZero, h]

lemma z_score_eq {v m s : ℝ} (h : s ≠ 0) :
    z_score v (some m) (some s) = some ((v - m) / s) := by
  simp [z_score, nullifZero_some h]

lemma z_score_none {v : ℝ} {a s : Option ℝ} (h : nullifZero s = none) :
    z_score v a s = none := by
  unfold z_score
  rw [h]
  cases a <;> rfl

lemma status_of_z_none {v : ℝ} {a s : Option ℝ} {t : ℝ}
    (h : z_score v a s = none) : status v a s t = "NORMAL" := by
  simp [status, h, sqlTrue]

lemma status_of_z_some {v : ℝ} {a s : Option ℝ} {t z : ℝ}
    (h : z_score v a s = some z) :
    status v a s t =
      (if |z| > t then "ANOMALY"
       else if |z| > t * 0.75 then "WARNING" else "NORMAL") := by
  simp only [status, h, sqlTrue, Option.some.injEq]
  congr 1
  · simp
  · congr 1
    simp

lemma direction_above {v m : ℝ} (h : v > m) :
    direction v (some m) = "ABOVE_AVERAGE" := by
  simp [direction, sqlTrue, h]

lemma direction_below {v m : ℝ} (h : ¬ v > m) :
    direction v (some m) = "BELOW_AVERAGE" := by
  simp [direction, sqlTrue, h]

lemma mem_detect_iff {rows : List DailyMetric} {t : ℝ} {r : ResultRow} :
    r ∈ detect_anomalies rows t ↔
      ∃ d ∈ rows, resultRow (avg_value rows) (stddev_value rows) t d = r := by
  simp [detect_anomalies, List.mem_insertionSort, List.mem_map]

/-- C1: with a non-NULL, nonzero baseline standard deviation, every row of
the classified output carries `z_score = (value - mean) / stddev` and its
severity follows the fixed first-match CASE: ANOMALY when the absolute
z-score exceeds the threshold, else WARNING when it exceeds
`threshold * 0.75`, else NORMAL. -/
theorem C1_first_match_rule (rows : List DailyMetric) (t s : ℝ)
    (hs : stddev_value rows = some s) (h0 : s ≠ 0) :
    ∀ r ∈ detect_anomalies rows t, ∃ m, avg_value rows = some m ∧
      r.z_score = some ((r.metric_value - m) / s) ∧
      r.status = (if |(r.metric_value - m) / s| > t then "ANOMALY"
        else if |(r.metric_value - m) / s| > t * 0.75 then "WARNING"
        else "NORMAL") := by
  intro r hr
  obtain ⟨d, hd, rfl⟩ := mem_detect_iff.mp hr
  have hlen : rows.length ≠ 0 := by
    intro hnil
    unfold stddev_value at hs
    rw [if_pos (by omega)] at hs
    cases hs
  have hm : avg_value rows = some ((values rows).sum / (rows.length : ℝ)) := by
    unfold avg_value
    rw [if_neg hlen]
  refine ⟨_, hm, ?_, ?_⟩
  · simp only [resultRow_z, resultRow_value]
    rw [hm, hs, z_score_eq h0]
  · simp only [resultRow_status, resultRow_value]
    rw [hm, hs, status_of_z_some (z_score_eq h0)]

lemma stddev_exPair : stddev_value exPair = some (Real.sqrt 2) := by
  unfold stddev_value
  rw [if_neg (by simp [exPair])]
  congr 2
  norm_num [values, exPair]

/-- C1 witness: the two-point window `exPair` has standard deviation
`√2 ≠ 0`, and the theorem applies to it at threshold 2. -/
theorem C1_first_match_rule_witness :
    stddev_value exPair = some (Real.sqrt 2) ∧ Real.sqrt 2 ≠ 0 ∧
    (∀ r ∈ detect_anomalies exPair 2, ∃ m, avg_value exPair = some m ∧
      r.z_score = some ((r.metric_value - m) / Real.sqrt 2) ∧
      r.status = (if |(r.metric_value - m) / Real.sqrt 2| > 2 then "ANOMALY"
        else if |(r.metric_value - m) / Real.sqrt 2| > 2 * 0.75 then "WARNING"
        else "NORMAL")) :=
  ⟨stddev_exPair, Real.sqrt_ne_zero'.mpr (by norm_num),
    C1_first_match_rule exPair 2 (Real.sqrt 2) stddev_exPair
      (Real.sqrt_ne_zero'.mpr (by norm_num))⟩

end SnowflakeAnalytics

namespace SnowflakeAnalytics

lemma nullif_stddev_none_of_const (rows : List DailyMetric)
    (hconst : ∀ r1 ∈ rows, ∀ r2 ∈ rows, r1.metric_value = r2.metric_value) :
    nullifZero (stddev_value rows) = none := by
  by_cases hl : rows.length < 2
  · unfold stddev_value
    rw [if_pos hl]
    rfl
  · push_neg at hl
    obtain ⟨d0, hd0⟩ : ∃ d0, d0 ∈ rows := by
      cases rows with
      | nil => simp at hl
      | cons x xs => exact ⟨x, List.mem_cons_self x xs⟩
    have hvals : ∀ x ∈ values rows, x = d0.metric_value := by
      intro x hx
      obtain ⟨d, hd, rfl⟩ := List.mem_map.mp hx
      exact hconst d hd d0 hd0
    have hlenval : (values rows).length = rows.length := List.length_map _ _
    have hne : (rows.length : ℝ) ≠ 0 := by
      have h2 : 0 < rows.length := by omega
      exact ne_of_gt (by exact_mod_cast h2)
    have hmean : (values rows).sum / (rows.length : ℝ) = d0.metric_value := by
      rw [List.sum_eq_card_nsmul _ _ hvals, hlenval, nsmul_eq_mul]
      exact mul_div_cancel_left₀ _ hne
    have hzero : ((values rows).map
        (fun x => (x - (values rows).sum / (rows.length : ℝ)) ^ 2)).sum = 0 := by
      apply List.sum_eq_zero
      intro y hy
      obtain ⟨x, hx, rfl⟩ := List.mem_map.mp hy
      rw [hmean, hvals x hx]
      ring
    unfold stddev_value
    rw [if_neg (by omega), hzero, zero_div, Real.sqrt_zero]
    simp [nullifZero]

/-- C2: on a constant-valued window (zero sample variance) no division by
zero happens: the z-score is NULL for every output row and every severity
is NORMAL, whatever the threshold. -/
theorem C2_zero_variance (rows : List DailyMetric) (t : ℝ)
    (hconst : ∀ r1 ∈ rows, ∀ r2 ∈ rows, r1.metric_value = r2.metric_value) :
    ∀ r ∈ detect_anomalies rows t, r.z_score = none ∧ r.status = "NORMAL" := by
  intro r hr
  obtain ⟨d, hd, rfl⟩ := mem_detect_iff.mp hr
  have hz : z_score d.metric_value (avg_value rows) (stddev_value rows) = none :=
    z_score_none (nullif_stddev_none_of_const rows hconst)
  exact ⟨hz, status_of_z_none hz⟩

/-- C2 witness: the constant window `exConst` with threshold 2. -/
theorem C2_zero_variance_witness :
    (∀ r1 ∈ exConst, ∀ r2 ∈ exConst, r1.metric_value = r2.metric_value) ∧
    (∀ r ∈ detect_anomalies exConst 2, r.z_score = none ∧ r.status = "NORMAL") := by
  have hc : ∀ r1 ∈ exConst, ∀ r2 ∈ exConst, r1.metric_value = r2.metric_value := by
    intro r1 h1 r2 h2
    simp only [exConst, List.mem_cons, List.not_mem_nil, or_false] at h1 h2
    rcases h1 with rfl | rfl <;> rcases h2 with rfl | rfl <;> rfl
  exact ⟨hc, C2_zero_variance exConst 2 hc⟩

end SnowflakeAnalytics

namespace SnowflakeAnalytics

lemma severityRank_le_of_le {v : ℝ} {a s : Option ℝ} {t1 t2 : ℝ} (h : t1 ≤ t2) :
    severityRank (status v a s t2) ≤ severityRank (status v a s t1) := by
  cases hz : z_score v a s with
  | none =>
    rw [status_of_z_none hz, status_of_z_none hz]
  | some z =>
    rw [status_of_z_some hz, status_of_z_some hz]
    by_cases hA2 : |z| > t2
    · have hA1 : |z| > t1 := lt_of_le_of_lt h hA2
      rw [if_pos hA2, if_pos hA1]
    · rw [if_neg hA2]
      by_cases hW2 : |z| > t2 * 0.75
      · have hW1 : |z| > t1 * 0.75 := by nlinarith
        rw [if_pos hW2]
        by_cases hA1 : |z| > t1
        · rw [if_pos hA1]
          decide
        · rw [if_neg hA1, if_pos hW1]
      · rw [if_neg hW2]
        exact Nat.zero_le _

/-- C6: raising the threshold never raises a row's severity.  For every
row of the output at the larger threshold there is a row of the output at
the smaller threshold for the same date and value whose severity rank
(NORMAL < WARNING < ANOMALY) is at least as large. -/
theorem C6_threshold_monotone (rows : List DailyMetric) (t1 t2 : ℝ)
    (h : t1 ≤ t2) :
    ∀ r2 ∈ detect_anomalies rows t2,
      ∃ r1 ∈ detect_anomalies rows t1,
        r1.metric_date = r2.metric_date ∧ r1.metric_value = r2.metric_value ∧
        severityRank r2.status ≤ severityRank r1.status := by
  intro r2 hr2
  obtain ⟨d, hd, rfl⟩ := mem_detect_iff.mp hr2
  refine ⟨resultRow (avg_value rows) (stddev_value rows) t1 d,
    mem_detect_iff.mpr ⟨d, hd, rfl⟩, rfl, rfl, ?_⟩
  simp only [resultRow_status]
  exact severityRank_le_of_le h

/-- C6 witness: the window `exPair` with thresholds 1 ≤ 2. -/
theorem C6_threshold_monotone_witness :
    ((1 : ℝ) ≤ 2) ∧
    (∀ r2 ∈ detect_anomalies exPair 2,
      ∃ r1 ∈ detect_anomalies exPair 1,
        r1.metric_date = r2.metric_date ∧ r1.metric_value = r2.metric_value ∧
        severityRank r2.status ≤ severityRank r1.status) :=
  ⟨one_le_two, C6_threshold_monotone exPair 1 2 one_le_two⟩

/-- C8: a row's direction is ABOVE_AVERAGE exactly when its value exceeds
the baseline mean and BELOW_AVERAGE otherwise; in particular a value equal
to the mean resolves to BELOW_AVERAGE (no error). -/
theorem C8_direction_boundary (rows : List DailyMetric) (t m : ℝ)
    (hm : avg_value rows = some m) :
    ∀ r ∈ detect_anomalies rows t,
      (r.direction = if r.metric_value > m then "ABOVE_AVERAGE"
        else "BELOW_AVERAGE") ∧
      (r.metric_value = m → r.direction = "BELOW_AVERAGE") := by
  intro r hr
  obtain ⟨d, hd, rfl⟩ := mem_detect_iff.mp hr
  simp only [resultRow_direction, resultRow_value]
  rw [hm]
  constructor
  · by_cases hgt : d.metric_value > m
    · rw [direction_above hgt, if_pos hgt]
    · rw [direction_below hgt, if_neg hgt]
  · intro he
    exact direction_below (by simp [he])

lemma avg_exConst : avg_value exConst = some 5 := by
  unfold avg_value
  rw [if_neg (by simp [exConst])]
  norm_num [values, exConst]

/-- C8 witness: the constant window `exConst` (mean 5), where every value
sits exactly on the mean and the direction resolves to BELOW_AVERAGE. -/
theorem C8_direction_boundary_witness :
    avg_value exConst = some 5 ∧
    (∀ r ∈ detect_anomalies exConst 2,
      (r.direction = if r.metric_value > 5 then "ABOVE_AVERAGE"
        else "BELOW_AVERAGE") ∧
      (r.metric_value = 5 → r.direction = "BELOW_AVERAGE")) :=
  ⟨avg_exConst, C8_direction_boundary exConst 2 5 avg_exConst⟩

end SnowflakeAnalytics

namespace SnowflakeAnalytics

/-- C4 counterexample: on the empty window nothing is raised.  The
`statistics` CTE yields NULL aggregates and the query returns the empty
result set; the embedding is a total function and has no error path, so no
`InsufficientDataError` exists anywhere in the pipeline. -/
theorem C4_empty_counterexample :
    avg_value [] = none ∧ stddev_value [] = none ∧
    detect_anomalies [] 2 = [] :=
  ⟨rfl, rfl, rfl⟩

/-- C4 amended: the pipeline is total and all-or-nothing in the only sense
the code supports: it always returns the full classified sequence, one
output row per input row (the empty window gives the empty result, not an
error). -/
theorem C4_no_partial_output (rows : List DailyMetric) (t : ℝ) :
    (detect_anomalies rows t).length = rows.length := by
  have h := List.perm_insertionSort dateDesc
    (rows.map (resultRow (avg_value rows) (stddev_value rows) t))
  calc (detect_anomalies rows t).length
      = (rows.map (resultRow (avg_value rows) (stddev_value rows) t)).length :=
        h.length_eq
    _ = rows.length := List.length_map _ _

/-- C5 counterexample: a window supplied in ascending date order comes out
of `detect_anomalies` in the reversed order, because of the query's
`ORDER BY d.metric_date DESC`; input order is not preserved. -/
theorem C5_order_counterexample :
    exPair.map (fun d => d.metric_date) = [0, 1] ∧
    (detect_anomalies exPair 2).map (fun r => r.metric_date) = [1, 0] ∧
    ¬ ((detect_anomalies exPair 2).map (fun r => r.metric_date) =
        exPair.map (fun d => d.metric_date)) := by
  have key : detect_anomalies exPair 2 =
      [resultRow (avg_value exPair) (stddev_value exPair) 2 ⟨1, 2⟩,
       resultRow (avg_value exPair) (stddev_value exPair) 2 ⟨0, 0⟩] := by
    have h01 : ¬ dateDesc (resultRow (avg_value exPair) (stddev_value exPair) 2 ⟨0, 0⟩)
        (resultRow (avg_value exPair) (stddev_value exPair) 2 ⟨1, 2⟩) := by
      simp [dateDesc]
    unfold detect_anomalies
    rw [show exPair.map (resultRow (avg_value exPair) (stddev_value exPair) 2) =
        [resultRow (avg_value exPair) (stddev_value exPair) 2 ⟨0, 0⟩,
         resultRow (avg_value exPair) (stddev_value exPair) 2 ⟨1, 2⟩] from rfl]
    simp only [List.insertionSort, List.orderedInsert]
    rw [if_neg h01]
  refine ⟨by simp [exPair], ?_, ?_⟩
  · rw [key]
    simp
  · rw [key]
    simp [exPair]

/-- C5 amended: the output is the classified input re-sorted by
`metric_date` descending: it is a permutation of the row-wise
classification of the input, sorted by the `ORDER BY` key, so input order
is preserved only when the input is already date-descending. -/
theorem C5_order_amended (rows : List DailyMetric) (t : ℝ) :
    (detect_anomalies rows t).Perm
      (rows.map (resultRow (avg_value rows) (stddev_value rows) t)) ∧
    List.Sorted dateDesc (detect_anomalies rows t) :=
  ⟨List.perm_insertionSort dateDesc _, List.sorted_insertionSort dateDesc _⟩

end SnowflakeAnalytics

namespace SnowflakeAnalytics

/-- C9: both severe-extraction sites implement the spec's `extractSevere`
with its at-or-above-minimum filter in the ordering
NORMAL < WARNING < ANOMALY, and the ANOMALY-only extraction is always a
sub-sequence (hence subset) of the WARNING-or-above extraction; an empty
result is just the empty list, never an error. -/
theorem C9_extract_severe_ordering (rows : List ResultRow) :
    filterAnomalies rows = extractSevere rows 2 ∧
    filterAlerts rows = extractSevere rows 1 ∧
    (filterAnomalies rows).Sublist (filterAlerts rows) := by
  refine ⟨?_, ?_, ?_⟩
  · apply List.filter_congr
    intro r _
    by_cases h : r.status = "ANOMALY"
    · simp [h, severityRank]
    · by_cases h2 : r.status = "WARNING" <;> simp [h, h2, severityRank]
  · apply List.filter_congr
    intro r _
    by_cases h : r.status = "ANOMALY"
    · simp [h, severityRank]
    · by_cases h2 : r.status = "WARNING" <;> simp [h, h2, severityRank]
  · have key : filterAnomalies rows =
        List.filter (fun r => r.status == "ANOMALY") (filterAlerts rows) := by
      unfold filterAnomalies filterAlerts
      rw [List.filter_filter]
      apply List.filter_congr
      intro r _
      cases h : (r.status == "ANOMALY") <;> simp [h]
    rw [key]
    exact List.filter_sublist _

end SnowflakeAnalytics

namespace Alerts

/-- C10: the batch alerting workflow calls the Slack dispatch exactly when
the table has a row of the latest month with severity Severe: severe rows
of earlier months never trigger it, and `send_slack_alert` on the empty
anomaly list returns `false` for every possible poster, i.e. without
building or posting any payload. -/
theorem C10_alert_iff (post : List AlertItem → Bool) (df : List GeoRow) :
    ((check_and_alert post df).isSome ↔
      ∃ r ∈ df, latest_month df = some r.month ∧
        r.anomaly_severity = "Severe") ∧
    send_slack_alert post [] = false := by
  constructor
  · unfold check_and_alert
    by_cases h : (severeRows df).length = 0
    · rw [if_pos h]
      simp only [Option.isSome_none, Bool.false_eq_true, false_iff]
      rw [List.length_eq_zero] at h
      rintro ⟨r, hr, hmax, hsev⟩
      have : r ∈ severeRows df := by
        unfold severeRows
        rw [List.mem_filter]
        exact ⟨hr, by simp [hmax, hsev]⟩
      rw [h] at this
      cases this
    · rw [if_neg h]
      simp only [Option.isSome_some, true_iff]
      have hne : severeRows df ≠ [] := by
        intro hnil
        exact h (by rw [hnil]; rfl)
      obtain ⟨r, hr⟩ := List.exists_mem_of_ne_nil _ hne
      unfold severeRows at hr
      rw [List.mem_filter] at hr
      refine ⟨r, hr.1, ?_⟩
      have := hr.2
      simp only [Bool.and_eq_true, beq_iff_eq] at this
      exact ⟨this.1.symm ▸ rfl, this.2⟩
  · rfl

end Alerts

namespace SnowflakeAnalytics

lemma status_anomaly_of {v m s t : ℝ} (hs : 0 < s) (h : t < |v - m| / s) :
    status v (some m) (some s) t = "ANOMALY" := by
  rw [status_of_z_some (z_score_eq (ne_of_gt hs))]
  have habs : |(v - m) / s| = |v - m| / s := by
    rw [abs_div, abs_of_pos hs]
  rw [habs, if_pos h]

lemma status_warning_of {v m s t : ℝ} (hs : 0 < s) (h1 : |v - m| / s ≤ t)
    (h2 : t * 0.75 < |v - m| / s) : status v (some m) (some s) t = "WARNING" := by
  rw [status_of_z_some (z_score_eq (ne_of_gt hs))]
  have habs : |(v - m) / s| = |v - m| / s := by
    rw [abs_div, abs_of_pos hs]
  rw [habs, if_neg (not_lt.mpr h1), if_pos h2]

lemma status_normal_of {v m s t : ℝ} (hs : 0 < s) (ht : 0 ≤ t)
    (h : |v - m| / s ≤ t * 0.75) : status v (some m) (some s) t = "NORMAL" := by
  rw [status_of_z_some (z_score_eq (ne_of_gt hs))]
  have habs : |(v - m) / s| = |v - m| / s := by
    rw [abs_div, abs_of_pos hs]
  have h1 : |v - m| / s ≤ t := by nlinarith
  rw [habs, if_neg (not_lt.mpr h1), if_neg (not_lt.mpr h)]

lemma sqrt1620_pos : 0 < Real.sqrt 1620 :=
  Real.sqrt_pos.mpr (by norm_num)

lemma sqrt1620_lb : 40.23 < Real.sqrt 1620 :=
  (Real.lt_sqrt (by norm_num)).mpr (by norm_num)

lemma sqrt1620_ub : Real.sqrt 1620 < 40.3 :=
  (Real.sqrt_lt' (by norm_num)).mpr (by norm_num)

lemma avg_exBoundary : avg_value exBoundary = some 28 := by
  unfold avg_value
  rw [if_neg (by simp [exBoundary])]
  norm_num [values, exBoundary]

lemma stddev_exBoundary : stddev_value exBoundary = some (Real.sqrt 1620) := by
  unfold stddev_value
  rw [if_neg (by simp [exBoundary])]
  congr 2
  norm_num [values, exBoundary]

/-- C3 counterexample: for the window `[10, 10, 10, 10, 100]` the baseline
mean is 28, not 26, and with the sample standard deviation `√1620 ≈ 40.25`
the point with value 100 has `|z| ≈ 1.79 ≤ 2`, so at threshold 2 it is
classified WARNING, not ANOMALY. -/
theorem C3_boundary_counterexample :
    avg_value exBoundary = some 28 ∧ avg_value exBoundary ≠ some 26 ∧
    status 100 (avg_value exBoundary) (stddev_value exBoundary) 2 = "WARNING" := by
  refine ⟨avg_exBoundary, ?_, ?_⟩
  · rw [avg_exBoundary]
    intro hcontra
    have h28 : (28 : ℝ) = 26 := Option.some.inj hcontra
    norm_num at h28
  · rw [avg_exBoundary, stddev_exBoundary]
    apply status_warning_of sqrt1620_pos
    · rw [show |(100 : ℝ) - 28| = 72 by norm_num, div_le_iff₀ sqrt1620_pos]
      nlinarith [sqrt1620_lb]
    · rw [show |(100 : ℝ) - 28| = 72 by norm_num, lt_div_iff₀ sqrt1620_pos]
      nlinarith [sqrt1620_ub]

/-- C3 amended: for `[10, 10, 10, 10, 100]` with threshold 2 the baseline
mean is 28 and the sample standard deviation is `√1620 ≈ 40.25`; the point
with value 100 has `z = 72/√1620 ≈ 1.79` and is classified WARNING, and
every point with value 10 has `z = -(18/√1620) ≈ -0.447` and is classified
NORMAL. -/
theorem C3_boundary_amended :
    avg_value exBoundary = some 28 ∧
    stddev_value exBoundary = some (Real.sqrt 1620) ∧
    (40.23 < Real.sqrt 1620 ∧ Real.sqrt 1620 < 40.3) ∧
    z_score 100 (avg_value exBoundary) (stddev_value exBoundary) =
      some (72 / Real.sqrt 1620) ∧
    (1.78 < 72 / Real.sqrt 1620 ∧ 72 / Real.sqrt 1620 < 1.79) ∧
    status 100 (avg_value exBoundary) (stddev_value exBoundary) 2 = "WARNING" ∧
    z_score 10 (avg_value exBoundary) (stddev_value exBoundary) =
      some (-(18 / Real.sqrt 1620)) ∧
    (0.44 < 18 / Real.sqrt 1620 ∧ 18 / Real.sqrt 1620 < 0.45) ∧
    status 10 (avg_value exBoundary) (stddev_value exBoundary) 2 = "NORMAL" := by
  have hpos := sqrt1620_pos
  have hlb := sqrt1620_lb
  have hub := sqrt1620_ub
  refine ⟨avg_exBoundary, stddev_exBoundary, ⟨hlb, hub⟩, ?_, ⟨?_, ?_⟩, ?_, ?_,
    ⟨?_, ?_⟩, ?_⟩
  · rw [avg_exBoundary, stddev_exBoundary, z_score_eq (ne_of_gt hpos)]
    norm_num
  · rw [lt_div_iff₀ hpos]
    nlinarith
  · rw [div_lt_iff₀ hpos]
    nlinarith
  · rw [avg_exBoundary, stddev_exBoundary]
    apply status_warning_of hpos
    · rw [show |(100 : ℝ) - 28| = 72 by norm_num, div_le_iff₀ hpos]
      nlinarith
    · rw [show |(100 : ℝ) - 28| = 72 by norm_num, lt_div_iff₀ hpos]
      nlinarith
  · rw [avg_exBoundary, stddev_exBoundary, z_score_eq (ne_of_gt hpos)]
    rw [show (10 : ℝ) - 28 = -18 by norm_num, neg_div]
  · rw [lt_div_iff₀ hpos]
    nlinarith
  · rw [div_lt_iff₀ hpos]
    nlinarith
  · rw [avg_exBoundary, stddev_exBoundary]
    apply status_normal_of hpos (by norm_num)
    rw [show |(10 : ℝ) - 28| = 18 by norm_num, div_le_iff₀ hpos]
    nlinarith

end SnowflakeAnalytics

namespace SnowflakeAnalytics

lemma sqrt28165_pos : 0 < Real.sqrt 2816.5 :=
  Real.sqrt_pos.mpr (by norm_num)

lemma sqrt28165_lb : 53 < Real.sqrt 2816.5 :=
  (Real.lt_sqrt (by norm_num)).mpr (by norm_num)

lemma sqrt28165_ub : Real.sqrt 2816.5 < 53.1 :=
  (Real.sqrt_lt' (by norm_num)).mpr (by norm_num)

lemma avg_exScenario : avg_value exScenario = some 118.75 := by
  unfold avg_value
  rw [if_neg (by simp [exScenario])]
  norm_num [values, exScenario]

lemma stddev_exScenario : stddev_value exScenario = some (Real.sqrt 2816.5) := by
  unfold stddev_value
  rw [if_neg (by simp [exScenario])]
  congr 2
  norm_num [values, exScenario]

/-- C7 counterexample: for the 8-period window
`[100, 102, 98, 101, 99, 103, 97, 250]` the sample standard deviation is
`√2816.5 ≈ 53.07`, not approximately 50.4 (it is not even within 1 of
50.4), and the last point's z-score `131.25/√2816.5 ≈ 2.47` is not within
0.1 of the claimed 2.60. -/
theorem C7_scenario_counterexample :
    stddev_value exScenario = some (Real.sqrt 2816.5) ∧
    ¬ |Real.sqrt 2816.5 - 50.4| ≤ 1 ∧
    ¬ |131.25 / Real.sqrt 2816.5 - 2.6| ≤ 0.1 := by
  have hpos := sqrt28165_pos
  have hlb := sqrt28165_lb
  have hub := sqrt28165_ub
  refine ⟨stddev_exScenario, ?_, ?_⟩
  · rw [not_le]
    calc (1 : ℝ) < Real.sqrt 2816.5 - 50.4 := by nlinarith
      _ ≤ |Real.sqrt 2816.5 - 50.4| := le_abs_self _
  · rw [not_le]
    have hz : 131.25 / Real.sqrt 2816.5 < 2.5 := by
      rw [div_lt_iff₀ hpos]
      nlinarith
    calc (0.1 : ℝ) < 2.6 - 131.25 / Real.sqrt 2816.5 := by nlinarith
      _ = -(131.25 / Real.sqrt 2816.5 - 2.6) := by ring
      _ ≤ |131.25 / Real.sqrt 2816.5 - 2.6| := neg_le_abs _

/-- C7 amended: for the 8-period window with threshold 2 the baseline mean
is 118.75 and the sample standard deviation is `√2816.5 ≈ 53.07`; the last
point has `z = 131.25/√2816.5 ≈ 2.47 > 2` and is classified ANOMALY with
direction ABOVE_AVERAGE (the spec's ABOVE_BASELINE), and every other point
is classified NORMAL. -/
theorem C7_scenario_amended :
    avg_value exScenario = some 118.75 ∧
    stddev_value exScenario = some (Real.sqrt 2816.5) ∧
    (53 < Real.sqrt 2816.5 ∧ Real.sqrt 2816.5 < 53.1) ∧
    z_score 250 (avg_value exScenario) (stddev_value exScenario) =
      some (131.25 / Real.sqrt 2816.5) ∧
    (2.47 < 131.25 / Real.sqrt 2816.5 ∧ 131.25 / Real.sqrt 2816.5 < 2.48) ∧
    status 250 (avg_value exScenario) (stddev_value exScenario) 2 = "ANOMALY" ∧
    direction 250 (avg_value exScenario) = "ABOVE_AVERAGE" ∧
    status 100 (avg_value exScenario) (stddev_value exScenario) 2 = "NORMAL" ∧
    status 102 (avg_value exScenario) (stddev_value exScenario) 2 = "NORMAL" ∧
    status 98 (avg_value exScenario) (stddev_value exScenario) 2 = "NORMAL" ∧
    status 101 (avg_value exScenario) (stddev_value exScenario) 2 = "NORMAL" ∧
    status 99 (avg_value exScenario) (stddev_value exScenario) 2 = "NORMAL" ∧
    status 103 (avg_value exScenario) (stddev_value exScenario) 2 = "NORMAL" ∧
    status 97 (avg_value exScenario) (stddev_value exScenario) 2 = "NORMAL" := by
  have hpos := sqrt28165_pos
  have hlb := sqrt28165_lb
  have hub := sqrt28165_ub
  refine ⟨avg_exScenario, stddev_exScenario, ⟨hlb, hub⟩, ?_, ⟨?_, ?_⟩, ?_, ?_,
    ?_, ?_, ?_, ?_, ?_, ?_, ?_⟩
  · rw [avg_exScenario, stddev_exScenario, z_score_eq (ne_of_gt hpos)]
    norm_num
  · rw [lt_div_iff₀ hpos]
    nlinarith
  · rw [div_lt_iff₀ hpos]
    nlinarith
  · rw [avg_exScenario, stddev_exScenario]
    apply status_anomaly_of hpos
    rw [show |(250 : ℝ) - 118.75| = 131.25 by norm_num, lt_div_iff₀ hpos]
    nlinarith
  · rw [avg_exScenario]
    exact direction_above (by norm_num)
  · rw [avg_exScenario, stddev_exScenario]
    apply status_normal_of hpos (by norm_num)
    rw [show |(100 : ℝ) - 118.75| = 18.75 by norm_num, div_le_iff₀ hpos]
    nlinarith
  · rw [avg_exScenario, stddev_exScenario]
    apply status_normal_of hpos (by norm_num)
    rw [show |(102 : ℝ) - 118.75| = 16.75 by norm_num, div_le_iff₀ hpos]
    nlinarith
  · rw [avg_exScenario, stddev_exScenario]
    apply status_normal_of hpos (by norm_num)
    rw [show |(98 : ℝ) - 118.75| = 20.75 by norm_num, div_le_iff₀ hpos]
    nlinarith
  · rw [avg_exScenario, stddev_exScenario]
    apply status_normal_of hpos (by norm_num)
    rw [show |(101 : ℝ) - 118.75| = 17.75 by norm_num, div_le_iff₀ hpos]
    nlinarith
  · rw [avg_exScenario, stddev_exScenario]
    apply status_normal_of hpos (by norm_num)
    rw [show |(99 : ℝ) - 118.75| = 19.75 by norm_num, div_le_iff₀ hpos]
    nlinarith
  · rw [avg_exScenario, stddev_exScenario]
    apply status_normal_of hpos (by norm_num)
    rw [show |(103 : ℝ) - 118.75| = 15.75 by norm_num, div_le_iff₀ hpos]
    nlinarith
  · rw [avg_exScenario, stddev_exScenario]
    apply status_normal_of hpos (by norm_num)
    rw [show |(97 : ℝ) - 118.75| = 21.75 by norm_num, div_le_iff₀ hpos]
    nlinarith

end SnowflakeAnalytics
